import Mathlib

/-!
Shallow embedding of the multi-tenant backend (src/backend/main.py,
src/backend/schemas.py) in Lean 4, together with theorems settling the
frozen claims about it.

The embedding models:
  * JSON-shaped `data` mappings as association lists over a small value type;
  * MongoDB documents for users and resources as Lean structures;
  * the database as explicit state (lists of documents) threaded through
    the handlers;
  * `datetime.utcnow()` timestamps as an explicit `now` argument;
  * each FastAPI handler as a pure function returning `Except HTTPError`.
MongoDB single-document operations are modelled by their documented
semantics: `insert_one` appends, `find_one`/`update_one`/`delete_one` act
on the first matching document, `$addToSet`/`$each` appends only values not
already present, `dict.update` in Python overwrites existing keys with the
other dict's values.
-/

/-- A JSON-ish scalar value, for schema-less `data` mappings and filters. -/
inductive JsonVal : Type where
  | str (s : String)
  | num (n : Int)
  | bool (b : Bool)
  | null
  deriving Repr, DecidableEq

/-- A key-value mapping (Python `Dict[str, Any]`) as an association list. -/
abbrev JsonMap := List (String × JsonVal)

/-- `datetime` values: year and month (used by the analytics aggregation)
plus a tick for sub-month resolution; ordered lexicographically. -/
structure DateTime where
  year : Nat
  month : Nat
  tick : Nat
  deriving Repr, DecidableEq

/-- Lexicographic comparison on `DateTime` (models `datetime` ordering). -/
def dtLe (a b : DateTime) : Bool :=
  a.year < b.year ||
    (a.year == b.year &&
      (a.month < b.month || (a.month == b.month && a.tick ≤ b.tick)))

/-- A stored user document (collection `user`).  `password` holds the hash. -/
structure UserDoc where
  uid : String
  email : String
  name : String
  password : String
  role : String
  systems : List String
  created_at : DateTime
  updated_at : DateTime
  deriving Repr, DecidableEq

/-- A stored resource document (collection `resource`). -/
structure ResourceDoc where
  rid : String
  system : String
  rtype : String
  data : JsonMap
  owner_id : String
  created_at : DateTime
  updated_at : DateTime
  deriving Repr, DecidableEq

/-- The database state: the `user` and `resource` collections. -/
structure DB where
  users : List UserDoc
  resources : List ResourceDoc
  deriving Repr, DecidableEq

/-- An `HTTPException(status_code, detail)`. -/
structure HTTPError where
  status : Nat
  detail : String
  deriving Repr, DecidableEq

/-- The decoded JWT payload: `{"sub": user_id, "role": role}`. -/
structure TokenPayload where
  sub : String
  role : String
  deriving Repr, DecidableEq

/-- `UserCreate` request body (schemas.py). -/
structure UserCreate where
  email : String
  name : String
  password : String
  role : String
  systems : List String
  deriving Repr, DecidableEq

/-- `UserUpdate` request body (schemas.py); `none` = field unset or None,
skipped by `exclude_unset` + the `is not None` filter in `update_user`. -/
structure UserUpdate where
  name : Option String
  role : Option String
  systems : Option (List String)
  deriving Repr, DecidableEq

/-- `QueryParams` request body (schemas.py), `sort` unused by the handler. -/
structure QueryParams where
  filter : JsonMap
  limit : Nat
  skip : Nat
  deriving Repr, DecidableEq

/-- Password hashing (passlib, an external collaborator): modelled as an
injective tagging of the plaintext; `verify_password` below inverts it. -/
def get_password_hash (password : String) : String :=
  "bcrypt$" ++ password

/-- `pwd_context.verify`: succeeds iff the hash was produced from the
plaintext (the hashing library's contract). -/
def verify_password (plain_password hashed_password : String) : Bool :=
  hashed_password == get_password_hash plain_password

/-- Replace the first element of `l` satisfying `p` by its image under `f`
(MongoDB `update_one`: at most one document is modified). -/
def updateFirst {α : Type} (p : α → Bool) (f : α → α) : List α → List α
  | [] => []
  | a :: as => if p a then f a :: as else a :: updateFirst p f as

/-- Remove the first element of `l` satisfying `p` (MongoDB `delete_one`). -/
def deleteFirst {α : Type} (p : α → Bool) : List α → List α
  | [] => []
  | a :: as => if p a then as else a :: deleteFirst p as

/-- `db["user"].find_one({"_id": ObjectId(uid)})`. -/
def findUserById (db : DB) (uid : String) : Option UserDoc :=
  db.users.find? (fun u => u.uid == uid)

/-- `db["user"].find_one({"email": email})`. -/
def findUserByEmail (db : DB) (email : String) : Option UserDoc :=
  db.users.find? (fun u => u.email == email)

/-- `get_current_user` (main.py), valid-token path: decode the payload,
fetch the user fresh from the store by the token's subject id, then
overwrite the fetched record's `role` with the role from the token
(`user["role"] = role`). -/
def get_current_user (db : DB) (tok : TokenPayload) : Except HTTPError UserDoc :=
  match findUserById db tok.sub with
  | none => .error ⟨401, "User not found"⟩
  | some u => .ok { u with role := tok.role }

/-- `require_admin` (main.py). -/
def require_admin (user : UserDoc) : Except HTTPError UserDoc :=
  if user.role != "admin" then .error ⟨403, "Admin access required"⟩
  else .ok user

/-- The per-system authorization guard repeated at the head of every
`/systems/{system}/...` handler:
`if user.get("role") != "admin" and system not in user.get("systems", [])`. -/
def systemGuardDenies (user : UserDoc) (system : String) : Bool :=
  user.role != "admin" && !(user.systems.contains system)

/-- `POST /auth/register` (main.py `register`).  `newId` is the ObjectId
assigned by the store; returns the token payload the handler encodes. -/
def register (db : DB) (payload : UserCreate) (newId : String) (now : DateTime) :
    Except HTTPError (DB × TokenPayload) :=
  match findUserByEmail db payload.email with
  | some _ => .error ⟨400, "Email already registered"⟩
  | none =>
    let user_doc : UserDoc :=
      { uid := newId
        email := payload.email
        name := payload.name
        password := get_password_hash payload.password
        role := payload.role
        systems := payload.systems
        created_at := now
        updated_at := now }
    .ok ({ db with users := db.users ++ [user_doc] }, ⟨newId, payload.role⟩)

/-- `POST /auth/login` (main.py `login`): a single check rejects both a
missing email and a wrong password with the same 401 "Invalid credentials";
on success the handler encodes `{"sub": id, "role": user.get("role","user")}`. -/
def login (db : DB) (email password : String) : Except HTTPError TokenPayload :=
  match findUserByEmail db email with
  | none => .error ⟨401, "Invalid credentials"⟩
  | some user =>
    if !(verify_password password user.password) then
      .error ⟨401, "Invalid credentials"⟩
    else
      .ok ⟨user.uid, user.role⟩

/-- `POST /admin/users` (main.py `create_user`), after `require_admin`. -/
def create_user (db : DB) (payload : UserCreate) (newId : String) (now : DateTime) :
    Except HTTPError (DB × String) :=
  match findUserByEmail db payload.email with
  | some _ => .error ⟨400, "Email already exists"⟩
  | none =>
    let doc : UserDoc :=
      { uid := newId
        email := payload.email
        name := payload.name
        password := get_password_hash payload.password
        role := payload.role
        systems := payload.systems
        created_at := now
        updated_at := now }
    .ok ({ db with users := db.users ++ [doc] }, newId)

/-- Apply the `$set` of `update_user` to one user document: each field of
the payload that is set and non-None replaces the stored field, and
`updated_at` is stamped with `now`. -/
def applyUserUpdate (p : UserUpdate) (now : DateTime) (u : UserDoc) : UserDoc :=
  { u with
    name := p.name.getD u.name
    role := p.role.getD u.role
    systems := p.systems.getD u.systems
    updated_at := now }

/-- `PATCH /admin/users/{user_id}` (main.py `update_user`), after
`require_admin`: `update_one` with `$set`, 404 when `matched_count == 0`. -/
def update_user (db : DB) (user_id : String) (payload : UserUpdate) (now : DateTime) :
    Except HTTPError DB :=
  match findUserById db user_id with
  | none => .error ⟨404, "User not found"⟩
  | some _ =>
    .ok { db with
          users := updateFirst (fun u => u.uid == user_id) (applyUserUpdate payload now) db.users }

/-- `DELETE /admin/users/{user_id}` (main.py `delete_user`), after
`require_admin`: `delete_one`, 404 when `deleted_count == 0`. -/
def delete_user (db : DB) (user_id : String) : Except HTTPError DB :=
  match findUserById db user_id with
  | none => .error ⟨404, "User not found"⟩
  | some _ =>
    .ok { db with users := deleteFirst (fun u => u.uid == user_id) db.users }

/-- MongoDB `$addToSet` with `$each`: append each element of `xs` to the
array in order, unless it is already present. -/
def addToSetEach : List String → List String → List String
  | arr, [] => arr
  | arr, x :: rest => addToSetEach (if arr.contains x then arr else arr ++ [x]) rest

/-- `POST /admin/users/{user_id}/assign` (main.py `assign_systems`), after
`require_admin`: `update_one` with `$addToSet`/`$each` on `systems`; the
`matched_count` is never inspected and the handler unconditionally returns
`{"assigned": true}` (the `Bool` component). -/
def assign_systems (db : DB) (user_id : String) (systems : List String) : DB × Bool :=
  ({ db with
     users := updateFirst (fun u => u.uid == user_id)
       (fun u => { u with systems := addToSetEach u.systems systems }) db.users },
   true)

/-- Look up a top-level field of a resource document by the key used in a
MongoDB query; dotted `data.`-paths reach into the `data` mapping. -/
def docField (d : ResourceDoc) (k : String) : Option JsonVal :=
  if k == "system" then some (.str d.system)
  else if k == "type" then some (.str d.rtype)
  else if k == "owner_id" then some (.str d.owner_id)
  else if k == "_id" then some (.str d.rid)
  else if k.startsWith "data." then (d.data.find? (fun p => p.1 == k.drop 5)).map (·.2)
  else none

/-- A document matches an equality-filter mapping iff every key's value
matches; per MongoDB, filtering a key by `null` also matches documents
where the field is absent. -/
def matchesQuery (d : ResourceDoc) (q : JsonMap) : Bool :=
  q.all (fun p =>
    match docField d p.1 with
    | some v => v == p.2
    | none => p.2 == .null)

/-- Python `dict` assignment `q[k] = v`: overwrite the existing entry for
`k`, or append a new one. -/
def setKey (q : JsonMap) (k : String) (v : JsonVal) : JsonMap :=
  if q.any (fun p => p.1 == k) then
    q.map (fun p => if p.1 == k then (k, v) else p)
  else q ++ [(k, v)]

/-- Python `q.update(f)`: for each pair of `f` in order, `q[k] = v` —
existing keys of `q` are OVERWRITTEN with `f`'s values. -/
def dictUpdate (q f : JsonMap) : JsonMap :=
  f.foldl (fun acc p => setKey acc p.1 p.2) q

/-- MongoDB cursor `.limit(n)`: `n = 0` means no limit. -/
def mongoLimit (limit : Nat) (l : List ResourceDoc) : List ResourceDoc :=
  if limit == 0 then l else l.take limit

/-- `POST /systems/{system}/{rtype}` (main.py `create_resource`): guard,
then insert a document stamping `created_at`/`updated_at` and storing the
payload's `data` verbatim; `newId` is the ObjectId assigned by the store. -/
def create_resource (db : DB) (system rtype : String) (payload_data : JsonMap)
    (user : UserDoc) (newId : String) (now : DateTime) :
    Except HTTPError (DB × String) :=
  if systemGuardDenies user system then .error ⟨403, "Access denied to this system"⟩
  else
    let doc : ResourceDoc :=
      { rid := newId
        system := system
        rtype := rtype
        data := payload_data
        owner_id := user.uid
        created_at := now
        updated_at := now }
    .ok ({ db with resources := db.resources ++ [doc] }, newId)

/-- `POST /systems/{system}/{rtype}/query` (main.py `query_resources`):
guard, then `q = {"system": system, "type": rtype}; q.update(params.filter)`
and `find(q).skip(skip).limit(limit)`. -/
def query_resources (db : DB) (system rtype : String) (params : QueryParams)
    (user : UserDoc) : Except HTTPError (List ResourceDoc) :=
  if systemGuardDenies user system then .error ⟨403, "Access denied to this system"⟩
  else
    let q := dictUpdate [("system", .str system), ("type", .str rtype)] params.filter
    .ok (mongoLimit params.limit ((db.resources.filter (fun d => matchesQuery d q)).drop params.skip))

/-- The lookup document `{"_id": rid, "system": system, "type": rtype}`
used by get/update/delete. -/
def resKeyMatch (system rtype rid : String) (d : ResourceDoc) : Bool :=
  d.rid == rid && d.system == system && d.rtype == rtype

/-- `GET /systems/{system}/{rtype}/{rid}` (main.py `get_resource`). -/
def get_resource (db : DB) (system rtype rid : String) (user : UserDoc) :
    Except HTTPError ResourceDoc :=
  if systemGuardDenies user system then .error ⟨403, "Access denied to this system"⟩
  else
    match db.resources.find? (resKeyMatch system rtype rid) with
    | none => .error ⟨404, "Not found"⟩
    | some doc => .ok doc

/-- `PATCH /systems/{system}/{rtype}/{rid}` (main.py `update_resource`):
`update_one` with `$set {"data": payload.data, "updated_at": now}` — a full
replacement of `data`; 404 when `matched_count == 0`. -/
def update_resource (db : DB) (system rtype rid : String) (payload_data : JsonMap)
    (user : UserDoc) (now : DateTime) : Except HTTPError DB :=
  if systemGuardDenies user system then .error ⟨403, "Access denied to this system"⟩
  else
    match db.resources.find? (resKeyMatch system rtype rid) with
    | none => .error ⟨404, "Not found"⟩
    | some _ =>
      .ok { db with
            resources := updateFirst (resKeyMatch system rtype rid)
              (fun d => { d with data := payload_data, updated_at := now }) db.resources }

/-- `DELETE /systems/{system}/{rtype}/{rid}` (main.py `delete_resource`). -/
def delete_resource (db : DB) (system rtype rid : String) (user : UserDoc) :
    Except HTTPError DB :=
  if systemGuardDenies user system then .error ⟨403, "Access denied to this system"⟩
  else
    match db.resources.find? (resKeyMatch system rtype rid) with
    | none => .error ⟨404, "Not found"⟩
    | some _ =>
      .ok { db with resources := deleteFirst (resKeyMatch system rtype rid) db.resources }

/-- Deduplicate a list of group keys keeping first occurrences. -/
def dedupKeys (l : List (Nat × String)) : List (Nat × String) :=
  l.foldl (fun acc k => if acc.contains k then acc else acc ++ [k]) []

/-- Insert a series entry into a list sorted ascending by month. -/
def insertByMonth (x : (Nat × String) × Nat) :
    List ((Nat × String) × Nat) → List ((Nat × String) × Nat)
  | [] => [x]
  | y :: ys => if x.1.1 ≤ y.1.1 then x :: y :: ys else y :: insertByMonth x ys

/-- Sort series entries ascending by month (the `$sort` stage). -/
def sortByMonth (l : List ((Nat × String) × Nat)) : List ((Nat × String) × Nat) :=
  l.foldr insertByMonth []

/-- `GET /analytics/{system}` (main.py `system_analytics`): guard, then an
aggregation matching this system's documents created since January 1 of the
current year, grouped by (month, type) with counts, sorted ascending by
month; `total` counts the system's documents with no date bound. -/
def system_analytics (db : DB) (system : String) (user : UserDoc) (now : DateTime) :
    Except HTTPError (List ((Nat × String) × Nat) × Nat) :=
  if systemGuardDenies user system then .error ⟨403, "Access denied to this system"⟩
  else
    let since : DateTime := ⟨now.year, 1, 0⟩
    let matched := db.resources.filter (fun d => d.system == system && dtLe since d.created_at)
    let keys := dedupKeys (matched.map (fun d => (d.created_at.month, d.rtype)))
    let series := sortByMonth (keys.map (fun k =>
      (k, (matched.filter (fun d => (d.created_at.month, d.rtype) == k)).length)))
    let totals := (db.resources.filter (fun d => d.system == system)).length
    .ok (series, totals)

/-! ## Helper lemmas -/

theorem systemGuardDenies_of_not_entitled (u : UserDoc) (s : String)
    (hr : u.role ≠ "admin") (hs : s ∉ u.systems) :
    systemGuardDenies u s = true := by
  simp [systemGuardDenies, hr, hs]

theorem systemGuardDenies_entitled (u : UserDoc) (s : String) (hs : s ∈ u.systems) :
    systemGuardDenies u s = false := by
  simp [systemGuardDenies, hs]

/-! ## Claims -/

/-- C3: for every non-admin user `u` and every system not in `u.systems`,
each of the six operations under `/systems/{system}/*` and
`GET /analytics/{system}` fails with 403 Forbidden regardless of the
payload.  Because each handler returns `.error` and a modified database
state is only ever carried inside `.ok`, denial leaves the Resource Store
untouched: no partial side effects occur before authorization succeeds. -/
theorem forbidden_before_store_access (db : DB) (system rtype rid newId : String)
    (pd : JsonMap) (params : QueryParams) (u : UserDoc) (now : DateTime)
    (hr : u.role ≠ "admin") (hs : system ∉ u.systems) :
    create_resource db system rtype pd u newId now = .error ⟨403, "Access denied to this system"⟩ ∧
    query_resources db system rtype params u = .error ⟨403, "Access denied to this system"⟩ ∧
    get_resource db system rtype rid u = .error ⟨403, "Access denied to this system"⟩ ∧
    update_resource db system rtype rid pd u now = .error ⟨403, "Access denied to this system"⟩ ∧
    delete_resource db system rtype rid u = .error ⟨403, "Access denied to this system"⟩ ∧
    system_analytics db system u now = .error ⟨403, "Access denied to this system"⟩ := by
  have hg := systemGuardDenies_of_not_entitled u system hr hs
  exact ⟨by simp [create_resource, hg], by simp [query_resources, hg],
         by simp [get_resource, hg], by simp [update_resource, hg],
         by simp [delete_resource, hg], by simp [system_analytics, hg]⟩

/-- Witness for C3 at a concrete non-admin user entitled only to "school",
targeting system "hospital". -/
theorem forbidden_before_store_access_witness :
    (⟨"u1", "u@x.io", "U", "h", "user", ["school"], ⟨2025, 1, 0⟩, ⟨2025, 1, 0⟩⟩ : UserDoc).role ≠ "admin" ∧
    "hospital" ∉ (⟨"u1", "u@x.io", "U", "h", "user", ["school"], ⟨2025, 1, 0⟩, ⟨2025, 1, 0⟩⟩ : UserDoc).systems ∧
    create_resource ⟨[], []⟩ "hospital" "patient" [] ⟨"u1", "u@x.io", "U", "h", "user", ["school"], ⟨2025, 1, 0⟩, ⟨2025, 1, 0⟩⟩ "r1" ⟨2025, 2, 5⟩ = .error ⟨403, "Access denied to this system"⟩ :=
  ⟨by decide, by decide,
   (forbidden_before_store_access ⟨[], []⟩ "hospital" "patient" "r0" "r1" []
      ⟨[], 50, 0⟩ ⟨"u1", "u@x.io", "U", "h", "user", ["school"], ⟨2025, 1, 0⟩, ⟨2025, 1, 0⟩⟩
      ⟨2025, 2, 5⟩ (by decide) (by decide)).1⟩

/-- C4: a request authenticated with a token issued for role=user never
passes the admin-only guard: whatever caller `get_current_user` resolves,
`require_admin` rejects it with 403 (the resolved caller's role is the
token's role, which is "user"). -/
theorem user_token_never_passes_admin_guard (db : DB) (tok : TokenPayload) (c : UserDoc)
    (hrole : tok.role = "user") (hok : get_current_user db tok = .ok c) :
    require_admin c = .error ⟨403, "Admin access required"⟩ := by
  unfold get_current_user at hok
  cases h : findUserById db tok.sub with
  | none => rw [h] at hok; exact absurd hok (by simp)
  | some u =>
    rw [h] at hok
    have hc : c = { u with role := tok.role } := by
      cases hok; rfl
    subst hc
    simp [require_admin, hrole]

/-- Witness for C4: a stored admin user queried with a role=user token is
still rejected by the admin guard. -/
theorem user_token_never_passes_admin_guard_witness :
    get_current_user ⟨[⟨"u1", "a@x.io", "A", "h", "admin", [], ⟨2025, 1, 0⟩, ⟨2025, 1, 0⟩⟩], []⟩ ⟨"u1", "user"⟩ =
      .ok ⟨"u1", "a@x.io", "A", "h", "user", [], ⟨2025, 1, 0⟩, ⟨2025, 1, 0⟩⟩ ∧
    require_admin ⟨"u1", "a@x.io", "A", "h", "user", [], ⟨2025, 1, 0⟩, ⟨2025, 1, 0⟩⟩ =
      .error ⟨403, "Admin access required"⟩ :=
  ⟨rfl,
   user_token_never_passes_admin_guard
     ⟨[⟨"u1", "a@x.io", "A", "h", "admin", [], ⟨2025, 1, 0⟩, ⟨2025, 1, 0⟩⟩], []⟩
     ⟨"u1", "user"⟩
     ⟨"u1", "a@x.io", "A", "h", "user", [], ⟨2025, 1, 0⟩, ⟨2025, 1, 0⟩⟩
     rfl rfl⟩

/-- C9: login failures are indistinguishable between "email not found" and
"wrong password": both produce exactly the same error, status 401 with
detail "Invalid credentials". -/
theorem login_failures_indistinguishable (db : DB) (e1 p1 e2 p2 : String) (u : UserDoc)
    (h1 : findUserByEmail db e1 = none)
    (h2 : findUserByEmail db e2 = some u)
    (h3 : verify_password p2 u.password = false) :
    login db e1 p1 = .error ⟨401, "Invalid credentials"⟩ ∧
    login db e2 p2 = login db e1 p1 := by
  constructor
  · simp [login, h1]
  · simp [login, h1, h2, h3]

/-- Witness for C9: a store holding one user; an unknown email and a known
email with a wrong password yield the same error. -/
theorem login_failures_indistinguishable_witness :
    findUserByEmail ⟨[⟨"u1", "a@x.io", "A", get_password_hash "pw", "user", [], ⟨2025, 1, 0⟩, ⟨2025, 1, 0⟩⟩], []⟩ "b@x.io" = none ∧
    login ⟨[⟨"u1", "a@x.io", "A", get_password_hash "pw", "user", [], ⟨2025, 1, 0⟩, ⟨2025, 1, 0⟩⟩], []⟩ "b@x.io" "pw" = .error ⟨401, "Invalid credentials"⟩ ∧
    login ⟨[⟨"u1", "a@x.io", "A", get_password_hash "pw", "user", [], ⟨2025, 1, 0⟩, ⟨2025, 1, 0⟩⟩], []⟩ "a@x.io" "wrong" =
      login ⟨[⟨"u1", "a@x.io", "A", get_password_hash "pw", "user", [], ⟨2025, 1, 0⟩, ⟨2025, 1, 0⟩⟩], []⟩ "b@x.io" "pw" :=
  ⟨by decide,
   (login_failures_indistinguishable
      ⟨[⟨"u1", "a@x.io", "A", get_password_hash "pw", "user", [], ⟨2025, 1, 0⟩, ⟨2025, 1, 0⟩⟩], []⟩
      "b@x.io" "pw" "a@x.io" "wrong"
      ⟨"u1", "a@x.io", "A", get_password_hash "pw", "user", [], ⟨2025, 1, 0⟩, ⟨2025, 1, 0⟩⟩
      (by decide) (by decide) (by decide)).1,
   (login_failures_indistinguishable
      ⟨[⟨"u1", "a@x.io", "A", get_password_hash "pw", "user", [], ⟨2025, 1, 0⟩, ⟨2025, 1, 0⟩⟩], []⟩
      "b@x.io" "pw" "a@x.io" "wrong"
      ⟨"u1", "a@x.io", "A", get_password_hash "pw", "user", [], ⟨2025, 1, 0⟩, ⟨2025, 1, 0⟩⟩
      (by decide) (by decide) (by decide)).2⟩

theorem find?_updateFirst {α : Type} (p : α → Bool) (f : α → α) (l : List α)
    (hf : ∀ a, p a = true → p (f a) = true) :
    (updateFirst p f l).find? p = (l.find? p).map f := by
  induction l with
  | nil => rfl
  | cons a as ih =>
    cases hpa : p a with
    | false =>
      simp only [updateFirst, hpa, Bool.false_eq_true, if_false]
      rw [List.find?_cons_of_neg _ (by simp [hpa]), List.find?_cons_of_neg _ (by simp [hpa]), ih]
    | true =>
      simp only [updateFirst, hpa, if_true]
      rw [List.find?_cons_of_pos _ (hf a hpa), List.find?_cons_of_pos _ hpa]
      rfl

theorem updateFirst_of_find?_none {α : Type} (p : α → Bool) (f : α → α) (l : List α)
    (h : l.find? p = none) : updateFirst p f l = l := by
  induction l with
  | nil => rfl
  | cons a as ih =>
    cases hpa : p a with
    | false =>
      rw [List.find?_cons_of_neg _ (by simp [hpa])] at h
      simp only [updateFirst, hpa, Bool.false_eq_true, if_false]
      rw [ih h]
    | true =>
      rw [List.find?_cons_of_pos _ hpa] at h
      exact absurd h (by simp)

theorem updateFirst_idem {α : Type} (p : α → Bool) (f : α → α) (l : List α)
    (hf : ∀ a, p a = true → p (f a) = true)
    (hff : ∀ a, p a = true → f (f a) = f a) :
    updateFirst p f (updateFirst p f l) = updateFirst p f l := by
  induction l with
  | nil => rfl
  | cons a as ih =>
    cases hpa : p a with
    | false => simp only [updateFirst, hpa, Bool.false_eq_true, if_false, ih]
    | true => simp only [updateFirst, hpa, if_true, hf a hpa, hff a hpa]

theorem mem_addToSetEach_of_mem_left (xs : List String) :
    ∀ (arr : List String) (s : String), s ∈ arr → s ∈ addToSetEach arr xs := by
  induction xs with
  | nil => intro arr s h; simpa [addToSetEach] using h
  | cons x rest ih =>
    intro arr s h
    rw [addToSetEach]
    apply ih
    by_cases hc : x ∈ arr <;> simp [hc, h]

theorem mem_addToSetEach_of_mem_right (xs : List String) :
    ∀ (arr : List String) (s : String), s ∈ xs → s ∈ addToSetEach arr xs := by
  induction xs with
  | nil => intro arr s h; cases h
  | cons x rest ih =>
    intro arr s h
    rw [addToSetEach]
    rcases List.mem_cons.mp h with rfl | h
    · apply mem_addToSetEach_of_mem_left
      by_cases hc : s ∈ arr <;> simp [hc]
    · exact ih _ s h

theorem nodup_addToSetEach (xs : List String) :
    ∀ arr : List String, arr.Nodup → (addToSetEach arr xs).Nodup := by
  induction xs with
  | nil => intro arr h; simpa [addToSetEach] using h
  | cons x rest ih =>
    intro arr h
    rw [addToSetEach]
    apply ih
    by_cases hc : x ∈ arr
    · simpa [hc] using h
    · simp [hc, List.nodup_append, h]

theorem addToSetEach_of_subset (xs : List String) :
    ∀ arr : List String, (∀ s ∈ xs, s ∈ arr) → addToSetEach arr xs = arr := by
  induction xs with
  | nil => intro arr _; rfl
  | cons x rest ih =>
    intro arr h
    rw [addToSetEach]
    have hx : arr.contains x = true := by simp [h x (by simp)]
    rw [if_pos hx]
    exact ih arr (fun s hs => h s (List.mem_cons_of_mem _ hs))

theorem addToSetEach_idem (arr xs : List String) :
    addToSetEach (addToSetEach arr xs) xs = addToSetEach arr xs :=
  addToSetEach_of_subset xs _ (fun s hs => mem_addToSetEach_of_mem_right xs arr s hs)

theorem resKeyMatch_preserved_by_data_update (system rtype rid : String)
    (d2 : JsonMap) (now : DateTime) (d : ResourceDoc)
    (h : resKeyMatch system rtype rid d = true) :
    resKeyMatch system rtype rid { d with data := d2, updated_at := now } = true := h

/-- C5: round-trip — for an authorized caller and a fresh store-assigned id,
`create_resource` succeeds and a subsequent `get_resource` on the returned
id yields a resource whose `data` is exactly the created mapping `d`, with
no coercion or loss. -/
theorem create_then_get_roundtrip (db db2 : DB) (system rtype : String) (d : JsonMap)
    (u : UserDoc) (newId rid2 : String) (now : DateTime)
    (hauth : systemGuardDenies u system = false)
    (hfresh : ∀ r ∈ db.resources, r.rid ≠ newId)
    (hcreate : create_resource db system rtype d u newId now = .ok (db2, rid2)) :
    rid2 = newId ∧
    Except.map ResourceDoc.data (get_resource db2 system rtype rid2 u) = Except.ok d := by
  unfold create_resource at hcreate
  rw [hauth] at hcreate
  simp only [Bool.false_eq_true, if_false, Except.ok.injEq, Prod.mk.injEq] at hcreate
  obtain ⟨hdb2, hrid2⟩ := hcreate
  subst hdb2; subst hrid2
  refine ⟨rfl, ?_⟩
  unfold get_resource
  rw [hauth]
  have hnone : db.resources.find? (resKeyMatch system rtype newId) = none := by
    rw [List.find?_eq_none]
    intro r hr
    simp [resKeyMatch, hfresh r hr]
  simp only [Bool.false_eq_true, if_false, List.find?_append, hnone, Option.none_orElse]
  rw [List.find?_cons_of_pos _ (by simp [resKeyMatch])]
  rfl

/-- Witness for C5: an entitled user creates a document with data
`{"name": "Ann"}` in an empty store and reads it back unchanged. -/
theorem create_then_get_roundtrip_witness :
    systemGuardDenies ⟨"u1", "u@x.io", "U", "h", "user", ["school"], ⟨2025, 1, 0⟩, ⟨2025, 1, 0⟩⟩ "school" = false ∧
    create_resource ⟨[], []⟩ "school" "student" [("name", .str "Ann")]
        ⟨"u1", "u@x.io", "U", "h", "user", ["school"], ⟨2025, 1, 0⟩, ⟨2025, 1, 0⟩⟩ "r1" ⟨2025, 3, 7⟩ =
      .ok (⟨[], [⟨"r1", "school", "student", [("name", .str "Ann")], "u1", ⟨2025, 3, 7⟩, ⟨2025, 3, 7⟩⟩]⟩, "r1") ∧
    Except.map ResourceDoc.data
        (get_resource ⟨[], [⟨"r1", "school", "student", [("name", .str "Ann")], "u1", ⟨2025, 3, 7⟩, ⟨2025, 3, 7⟩⟩]⟩
          "school" "student" "r1"
          ⟨"u1", "u@x.io", "U", "h", "user", ["school"], ⟨2025, 1, 0⟩, ⟨2025, 1, 0⟩⟩) =
      Except.ok [("name", .str "Ann")] :=
  ⟨by decide, rfl,
   (create_then_get_roundtrip ⟨[], []⟩
      ⟨[], [⟨"r1", "school", "student", [("name", .str "Ann")], "u1", ⟨2025, 3, 7⟩, ⟨2025, 3, 7⟩⟩]⟩
      "school" "student" [("name", .str "Ann")]
      ⟨"u1", "u@x.io", "U", "h", "user", ["school"], ⟨2025, 1, 0⟩, ⟨2025, 1, 0⟩⟩
      "r1" "r1" ⟨2025, 3, 7⟩ (by decide) (by intro r hr; cases hr) rfl).2⟩

/-- C6: `update_resource` is a full replacement of `data`, not a merge —
after a successful update with `d2`, `get_resource` on the same
(system, type, id) returns `data` exactly equal to `d2`, so no key of the
previous mapping survives unless it is in `d2`. -/
theorem update_then_get_full_replacement (db db2 : DB) (system rtype rid : String)
    (d2 : JsonMap) (u : UserDoc) (now : DateTime)
    (hauth : systemGuardDenies u system = false)
    (hupd : update_resource db system rtype rid d2 u now = .ok db2) :
    Except.map ResourceDoc.data (get_resource db2 system rtype rid u) = Except.ok d2 := by
  unfold update_resource at hupd
  rw [hauth] at hupd
  simp only [Bool.false_eq_true, if_false] at hupd
  cases hfind : db.resources.find? (resKeyMatch system rtype rid) with
  | none => rw [hfind] at hupd; exact absurd hupd (by simp)
  | some doc =>
    rw [hfind] at hupd
    simp only [Except.ok.injEq] at hupd
    subst hupd
    unfold get_resource
    rw [hauth]
    simp only [Bool.false_eq_true, if_false]
    rw [find?_updateFirst _ _ _ (resKeyMatch_preserved_by_data_update system rtype rid d2 now), hfind]
    rfl

/-- Witness for C6: updating `{"a": 1, "b": 2}` to `{"c": 3}` leaves the
document holding exactly `{"c": 3}` — key "a" and "b" do not survive. -/
theorem update_then_get_full_replacement_witness :
    update_resource ⟨[], [⟨"r1", "school", "student", [("a", .num 1), ("b", .num 2)], "u1", ⟨2025, 1, 0⟩, ⟨2025, 1, 0⟩⟩]⟩
        "school" "student" "r1" [("c", .num 3)]
        ⟨"u1", "u@x.io", "U", "h", "user", ["school"], ⟨2025, 1, 0⟩, ⟨2025, 1, 0⟩⟩ ⟨2025, 4, 2⟩ =
      .ok ⟨[], [⟨"r1", "school", "student", [("c", .num 3)], "u1", ⟨2025, 1, 0⟩, ⟨2025, 4, 2⟩⟩]⟩ ∧
    Except.map ResourceDoc.data
        (get_resource ⟨[], [⟨"r1", "school", "student", [("c", .num 3)], "u1", ⟨2025, 1, 0⟩, ⟨2025, 4, 2⟩⟩]⟩
          "school" "student" "r1"
          ⟨"u1", "u@x.io", "U", "h", "user", ["school"], ⟨2025, 1, 0⟩, ⟨2025, 1, 0⟩⟩) =
      Except.ok [("c", .num 3)] :=
  ⟨rfl,
   update_then_get_full_replacement
     ⟨[], [⟨"r1", "school", "student", [("a", .num 1), ("b", .num 2)], "u1", ⟨2025, 1, 0⟩, ⟨2025, 1, 0⟩⟩]⟩
     ⟨[], [⟨"r1", "school", "student", [("c", .num 3)], "u1", ⟨2025, 1, 0⟩, ⟨2025, 4, 2⟩⟩]⟩
     "school" "student" "r1" [("c", .num 3)]
     ⟨"u1", "u@x.io", "U", "h", "user", ["school"], ⟨2025, 1, 0⟩, ⟨2025, 1, 0⟩⟩
     ⟨2025, 4, 2⟩ (by decide) rfl⟩

/-- C10: `POST /admin/users/{user_id}/assign` by an admin never inspects
`matched_count`: for any `user_id`, including ids matching no stored user,
it returns `{"assigned": true}`, and when the target does not exist no user
record is changed — unlike admin update and delete, which fail 404. -/
theorem assign_systems_never_404 (db : DB) (uid : String) (xs : List String)
    (caller : UserDoc) (p : UserUpdate) (now : DateTime)
    (hadmin : caller.role = "admin") (hmissing : findUserById db uid = none) :
    require_admin caller = .ok caller ∧
    assign_systems db uid xs = (db, true) ∧
    update_user db uid p now = .error ⟨404, "User not found"⟩ ∧
    delete_user db uid = .error ⟨404, "User not found"⟩ := by
  have hm : db.users.find? (fun u => u.uid == uid) = none := hmissing
  refine ⟨?_, ?_, ?_, ?_⟩
  · simp [require_admin, hadmin]
  · unfold assign_systems
    rw [updateFirst_of_find?_none _ _ _ hm]
  · simp [update_user, hmissing]
  · simp [delete_user, hmissing]

/-- Witness for C10: assigning to an absent id "ghost" in a one-user store
leaves the store unchanged and still reports success. -/
theorem assign_systems_never_404_witness :
    (⟨"a1", "a@x.io", "Adm", "h", "admin", [], ⟨2025, 1, 0⟩, ⟨2025, 1, 0⟩⟩ : UserDoc).role = "admin" ∧
    findUserById ⟨[⟨"u1", "u@x.io", "U", "h", "user", ["school"], ⟨2025, 1, 0⟩, ⟨2025, 1, 0⟩⟩], []⟩ "ghost" = none ∧
    assign_systems ⟨[⟨"u1", "u@x.io", "U", "h", "user", ["school"], ⟨2025, 1, 0⟩, ⟨2025, 1, 0⟩⟩], []⟩ "ghost" ["school"] =
      (⟨[⟨"u1", "u@x.io", "U", "h", "user", ["school"], ⟨2025, 1, 0⟩, ⟨2025, 1, 0⟩⟩], []⟩, true) :=
  ⟨rfl, by decide,
   (assign_systems_never_404 ⟨[⟨"u1", "u@x.io", "U", "h", "user", ["school"], ⟨2025, 1, 0⟩, ⟨2025, 1, 0⟩⟩], []⟩
      "ghost" ["school"] ⟨"a1", "a@x.io", "Adm", "h", "admin", [], ⟨2025, 1, 0⟩, ⟨2025, 1, 0⟩⟩
      ⟨none, none, none⟩ ⟨2025, 1, 0⟩ rfl (by decide)).2.1⟩

/-- Counterexample for C2: the claim says a user whose stored role was
changed is authorized according to the STORED role.  Here the store holds
role "user" for u1, yet a (still valid) token carrying role "admin" yields
a resolved caller with role "admin" that passes `require_admin`: the guard
authorizes by the TOKEN role, because `get_current_user` overwrites the
freshly fetched record's role with the token's (`user["role"] = role`). -/
theorem get_current_user_stale_role_counterexample :
    (findUserById ⟨[⟨"u1", "a@x.io", "A", "h", "user", [], ⟨2025, 1, 0⟩, ⟨2025, 1, 0⟩⟩], []⟩ "u1").map UserDoc.role = some "user" ∧
    get_current_user ⟨[⟨"u1", "a@x.io", "A", "h", "user", [], ⟨2025, 1, 0⟩, ⟨2025, 1, 0⟩⟩], []⟩ ⟨"u1", "admin"⟩ =
      .ok ⟨"u1", "a@x.io", "A", "h", "admin", [], ⟨2025, 1, 0⟩, ⟨2025, 1, 0⟩⟩ ∧
    require_admin ⟨"u1", "a@x.io", "A", "h", "admin", [], ⟨2025, 1, 0⟩, ⟨2025, 1, 0⟩⟩ =
      .ok ⟨"u1", "a@x.io", "A", "h", "admin", [], ⟨2025, 1, 0⟩, ⟨2025, 1, 0⟩⟩ :=
  ⟨by decide, rfl, rfl⟩

/-- C2 (amended): the caller used by the guards is fetched fresh from the
Credential Store by the token's subject id, so stored changes to the
`systems` entitlement set (and every other stored field) take effect before
the token's natural expiry — but the caller's `role` is the one encoded in
the token, so stored role changes do NOT take effect until a new token is
issued. -/
theorem get_current_user_fresh_except_role (db : DB) (tok : TokenPayload) (u : UserDoc)
    (h : findUserById db tok.sub = some u) :
    ∃ c, get_current_user db tok = .ok c ∧
      c.systems = u.systems ∧ c.email = u.email ∧ c.name = u.name ∧
      c.uid = u.uid ∧ c.role = tok.role := by
  refine ⟨{ u with role := tok.role }, ?_, rfl, rfl, rfl, rfl, rfl⟩
  unfold get_current_user
  rw [h]

/-- Witness for C2 (amended): after u1's entitlements were changed in the
store to ["school"], a pre-existing token resolves to a caller carrying the
new entitlements, but the token's role. -/
theorem get_current_user_fresh_except_role_witness :
    findUserById ⟨[⟨"u1", "a@x.io", "A", "h", "user", ["school"], ⟨2025, 1, 0⟩, ⟨2025, 1, 0⟩⟩], []⟩ "u1" =
      some ⟨"u1", "a@x.io", "A", "h", "user", ["school"], ⟨2025, 1, 0⟩, ⟨2025, 1, 0⟩⟩ ∧
    ∃ c, get_current_user ⟨[⟨"u1", "a@x.io", "A", "h", "user", ["school"], ⟨2025, 1, 0⟩, ⟨2025, 1, 0⟩⟩], []⟩ ⟨"u1", "user"⟩ = .ok c ∧
      c.systems = ["school"] ∧ c.email = "a@x.io" ∧ c.name = "A" ∧ c.uid = "u1" ∧ c.role = "user" :=
  ⟨by decide,
   get_current_user_fresh_except_role
     ⟨[⟨"u1", "a@x.io", "A", "h", "user", ["school"], ⟨2025, 1, 0⟩, ⟨2025, 1, 0⟩⟩], []⟩
     ⟨"u1", "user"⟩ ⟨"u1", "a@x.io", "A", "h", "user", ["school"], ⟨2025, 1, 0⟩, ⟨2025, 1, 0⟩⟩
     (by decide)⟩

/-- Counterexample for C7: the claim says each assigned system appears
exactly once after `assign_systems`, for EVERY existing user.  Registration
(`register`) stores `payload.systems` verbatim, so a user's stored list may
already contain duplicates; `$addToSet` only refrains from appending and
never collapses them.  For a user whose stored list is
["school", "school"], assigning ["school", "school"] leaves "school"
appearing twice, not once. -/
theorem assign_systems_duplicate_counterexample :
    (findUserById (assign_systems ⟨[⟨"u1", "a@x.io", "A", "h", "user", ["school", "school"], ⟨2025, 1, 0⟩, ⟨2025, 1, 0⟩⟩], []⟩ "u1" ["school", "school"]).1 "u1").map
      (fun u => u.systems.count "school") = some 2 := by
  decide

/-- C7 (amended): `assign_systems` has set-union semantics relative to the
stored list and is idempotent: every assigned system is present afterwards;
repeating the identical operation changes nothing; `$addToSet` never newly
introduces a duplicate, so each assigned system appears exactly once
PROVIDED the user's pre-existing `systems` list is duplicate-free —
pre-existing duplicates (possible, since registration stores the list
verbatim) are preserved, not collapsed. -/
theorem assign_systems_set_union_idempotent (db : DB) (uid : String) (xs : List String)
    (u : UserDoc) (hu : findUserById db uid = some u) :
    findUserById (assign_systems db uid xs).1 uid =
      some { u with systems := addToSetEach u.systems xs } ∧
    (∀ s ∈ xs, s ∈ addToSetEach u.systems xs) ∧
    (u.systems.Nodup → ∀ s ∈ xs, (addToSetEach u.systems xs).count s = 1) ∧
    assign_systems (assign_systems db uid xs).1 uid xs = assign_systems db uid xs := by
  have hm : db.users.find? (fun v => v.uid == uid) = some u := hu
  have hf : ∀ v : UserDoc, (v.uid == uid) = true →
      (({ v with systems := addToSetEach v.systems xs } : UserDoc).uid == uid) = true :=
    fun v hv => hv
  refine ⟨?_, ?_, ?_, ?_⟩
  · show (updateFirst _ _ db.users).find? _ = _
    rw [find?_updateFirst _ _ _ hf, hm]
    rfl
  · exact fun s hs => mem_addToSetEach_of_mem_right xs u.systems s hs
  · intro hnd s hs
    exact List.count_eq_one_of_mem (nodup_addToSetEach xs u.systems hnd)
      (mem_addToSetEach_of_mem_right xs u.systems s hs)
  · unfold assign_systems
    have hff : ∀ v : UserDoc, (v.uid == uid) = true →
        ({ { v with systems := addToSetEach v.systems xs } with
            systems := addToSetEach ({ v with systems := addToSetEach v.systems xs } : UserDoc).systems xs } : UserDoc) =
          { v with systems := addToSetEach v.systems xs } := by
      intro v _
      simp [addToSetEach_idem]
    have := updateFirst_idem (fun v : UserDoc => v.uid == uid)
      (fun v => { v with systems := addToSetEach v.systems xs }) db.users hf hff
    simp only [Prod.mk.injEq, and_true]
    exact congrArg (fun l => ({ users := l, resources := db.resources } : DB)) this

/-- Witness for C7 (amended) at a duplicate-free user entitled to
["school"], assigned ["school", "school"]. -/
theorem assign_systems_set_union_idempotent_witness :
    findUserById ⟨[⟨"u1", "a@x.io", "A", "h", "user", ["school"], ⟨2025, 1, 0⟩, ⟨2025, 1, 0⟩⟩], []⟩ "u1" =
      some ⟨"u1", "a@x.io", "A", "h", "user", ["school"], ⟨2025, 1, 0⟩, ⟨2025, 1, 0⟩⟩ ∧
    ((⟨"u1", "a@x.io", "A", "h", "user", ["school"], ⟨2025, 1, 0⟩, ⟨2025, 1, 0⟩⟩ : UserDoc).systems.Nodup →
      ∀ s ∈ ["school", "school"],
        (addToSetEach (⟨"u1", "a@x.io", "A", "h", "user", ["school"], ⟨2025, 1, 0⟩, ⟨2025, 1, 0⟩⟩ : UserDoc).systems ["school", "school"]).count s = 1) :=
  ⟨by decide,
   (assign_systems_set_union_idempotent
      ⟨[⟨"u1", "a@x.io", "A", "h", "user", ["school"], ⟨2025, 1, 0⟩, ⟨2025, 1, 0⟩⟩], []⟩
      "u1" ["school", "school"]
      ⟨"u1", "a@x.io", "A", "h", "user", ["school"], ⟨2025, 1, 0⟩, ⟨2025, 1, 0⟩⟩
      (by decide)).2.2.1⟩

/-- Counterexample for C8: the claim says EVERY Credential Store write —
including assign — stamps `updated_at` with the current time.  But the
`assign_systems` handler's `update_one` carries only the `$addToSet`
operator and no `updated_at` in a `$set` (it does not even read a clock):
here it changes the user's `systems` from [] to ["school"], yet
`updated_at` remains the original ⟨2025, 1, 0⟩. -/
theorem assign_systems_no_updated_at_counterexample :
    findUserById (assign_systems ⟨[⟨"u1", "a@x.io", "A", "h", "user", [], ⟨2025, 1, 0⟩, ⟨2025, 1, 0⟩⟩], []⟩ "u1" ["school"]).1 "u1" =
      some ⟨"u1", "a@x.io", "A", "h", "user", ["school"], ⟨2025, 1, 0⟩, ⟨2025, 1, 0⟩⟩ := by
  decide

/-- C8 (amended): registration and admin creation stamp both `created_at`
and `updated_at` with the current time, and admin partial update stamps
`updated_at` — but `assign_systems` is a Credential Store write that does
NOT touch `updated_at` (or `created_at`). -/
theorem credential_write_timestamps (db : DB) (p : UserCreate) (pu : UserUpdate)
    (uid newId : String) (xs : List String) (now : DateTime) (u : UserDoc)
    (hfresh : ∀ v ∈ db.users, v.uid ≠ newId)
    (hu : findUserById db uid = some u) :
    (∀ db2 tok, register db p newId now = .ok (db2, tok) →
      ∃ v, findUserById db2 newId = some v ∧ v.created_at = now ∧ v.updated_at = now) ∧
    (∀ db2 rid, create_user db p newId now = .ok (db2, rid) →
      ∃ v, findUserById db2 newId = some v ∧ v.created_at = now ∧ v.updated_at = now) ∧
    (∀ db2, update_user db uid pu now = .ok db2 →
      ∃ v, findUserById db2 uid = some v ∧ v.updated_at = now) ∧
    (∃ v, findUserById (assign_systems db uid xs).1 uid = some v ∧
      v.updated_at = u.updated_at ∧ v.created_at = u.created_at) := by
  have hm : db.users.find? (fun v => v.uid == uid) = some u := hu
  have hnone : db.users.find? (fun v => v.uid == newId) = none := by
    rw [List.find?_eq_none]
    intro v hv
    simp [hfresh v hv]
  refine ⟨?_, ?_, ?_, ?_⟩
  · intro db2 tok hreg
    unfold register at hreg
    cases hmail : findUserByEmail db p.email with
    | some w => rw [hmail] at hreg; exact absurd hreg (by simp)
    | none =>
      rw [hmail] at hreg
      simp only [Except.ok.injEq, Prod.mk.injEq] at hreg
      obtain ⟨hdb2, -⟩ := hreg
      subst hdb2
      refine ⟨{ uid := newId, email := p.email, name := p.name,
                password := get_password_hash p.password, role := p.role,
                systems := p.systems, created_at := now, updated_at := now }, ?_, rfl, rfl⟩
      show (db.users ++ [_]).find? _ = _
      rw [List.find?_append, hnone, Option.none_or,
        List.find?_cons_of_pos _ (by simp)]
  · intro db2 rid hcr
    unfold create_user at hcr
    cases hmail : findUserByEmail db p.email with
    | some w => rw [hmail] at hcr; exact absurd hcr (by simp)
    | none =>
      rw [hmail] at hcr
      simp only [Except.ok.injEq, Prod.mk.injEq] at hcr
      obtain ⟨hdb2, -⟩ := hcr
      subst hdb2
      refine ⟨{ uid := newId, email := p.email, name := p.name,
                password := get_password_hash p.password, role := p.role,
                systems := p.systems, created_at := now, updated_at := now }, ?_, rfl, rfl⟩
      show (db.users ++ [_]).find? _ = _
      rw [List.find?_append, hnone, Option.none_or,
        List.find?_cons_of_pos _ (by simp)]
  · intro db2 hupd
    unfold update_user at hupd
    rw [hu] at hupd
    simp only [Except.ok.injEq] at hupd
    subst hupd
    refine ⟨applyUserUpdate pu now u, ?_, rfl⟩
    show (updateFirst _ _ db.users).find? _ = _
    rw [find?_updateFirst (fun v : UserDoc => v.uid == uid) (applyUserUpdate pu now)
      db.users (fun v hv => hv), hm]
    rfl
  · refine ⟨{ u with systems := addToSetEach u.systems xs }, ?_, rfl, rfl⟩
    show (updateFirst _ _ db.users).find? _ = _
    rw [find?_updateFirst (fun v : UserDoc => v.uid == uid)
      (fun v => { v with systems := addToSetEach v.systems xs }) db.users (fun v hv => hv), hm]
    rfl

/-- Witness for C8 (amended), registering a fresh user into a one-user
store at time ⟨2025, 6, 1⟩. -/
theorem credential_write_timestamps_witness :
    (∀ v ∈ (⟨[⟨"u1", "a@x.io", "A", "h", "user", [], ⟨2025, 1, 0⟩, ⟨2025, 1, 0⟩⟩], []⟩ : DB).users, v.uid ≠ "u9") ∧
    findUserById ⟨[⟨"u1", "a@x.io", "A", "h", "user", [], ⟨2025, 1, 0⟩, ⟨2025, 1, 0⟩⟩], []⟩ "u1" =
      some ⟨"u1", "a@x.io", "A", "h", "user", [], ⟨2025, 1, 0⟩, ⟨2025, 1, 0⟩⟩ ∧
    (∀ db2 tok, register ⟨[⟨"u1", "a@x.io", "A", "h", "user", [], ⟨2025, 1, 0⟩, ⟨2025, 1, 0⟩⟩], []⟩
        ⟨"b@x.io", "B", "pw", "user", ["school"]⟩ "u9" ⟨2025, 6, 1⟩ = .ok (db2, tok) →
      ∃ v, findUserById db2 "u9" = some v ∧ v.created_at = ⟨2025, 6, 1⟩ ∧ v.updated_at = ⟨2025, 6, 1⟩) :=
  ⟨by decide, by decide,
   (credential_write_timestamps ⟨[⟨"u1", "a@x.io", "A", "h", "user", [], ⟨2025, 1, 0⟩, ⟨2025, 1, 0⟩⟩], []⟩
      ⟨"b@x.io", "B", "pw", "user", ["school"]⟩ ⟨none, none, none⟩
      "u1" "u9" ["school"] ⟨2025, 6, 1⟩
      ⟨"u1", "a@x.io", "A", "h", "user", [], ⟨2025, 1, 0⟩, ⟨2025, 1, 0⟩⟩
      (by decide) (by decide)).1⟩

/-- C1, demonstrated at a concrete input: `query_resources` merges the
caller-supplied filter into the mandatory scoping document with Python
`dict.update`, which OVERWRITES the mandatory `system`/`type` keys with the
filter's values.  A non-admin caller entitled only to "school", querying
`/systems/school/student/query` with filter
`{"system": "hospital", "type": "patient"}`, passes the guard (the path
system is "school") and receives a "hospital"-scoped document — the
mandatory (system, type) scoping is overridden and cross-tenant data leaks,
contradicting the claim that it cannot be. -/
theorem query_filter_overrides_scoping_bug :
    systemGuardDenies ⟨"u1", "u@x.io", "U", "h", "user", ["school"], ⟨2025, 1, 0⟩, ⟨2025, 1, 0⟩⟩ "school" = false ∧
    "hospital" ∉ (⟨"u1", "u@x.io", "U", "h", "user", ["school"], ⟨2025, 1, 0⟩, ⟨2025, 1, 0⟩⟩ : UserDoc).systems ∧
    query_resources ⟨[], [⟨"r1", "hospital", "patient", [("name", .str "Bob")], "u2", ⟨2025, 1, 0⟩, ⟨2025, 1, 0⟩⟩]⟩
        "school" "student" ⟨[("system", .str "hospital"), ("type", .str "patient")], 50, 0⟩
        ⟨"u1", "u@x.io", "U", "h", "user", ["school"], ⟨2025, 1, 0⟩, ⟨2025, 1, 0⟩⟩ =
      .ok [⟨"r1", "hospital", "patient", [("name", .str "Bob")], "u2", ⟨2025, 1, 0⟩, ⟨2025, 1, 0⟩⟩] :=
  ⟨by decide, by decide, rfl⟩
